import Mathlib

/-
  Verification development for `scripts/usb_monitor.py` of the casette
  repository.

  The Python script is embedded shallowly: every externally visible call the
  script makes (subprocess.run, subprocess.Popen, os.makedirs, os.rmdir,
  os.path.exists, pyudev setup, thread spawning, time.sleep) is represented by
  an `Effect` value recorded in the order the script performs the call, and the
  outcome of every fallible call is supplied by an `Env` (an exception raised
  by a primitive is represented as the corresponding `Option String` or
  `CallResult.raised` outcome).  The script's `mounted_devices` set of device
  node paths is a duplicate-free list of strings.  Log statements are recorded
  as `LogEntry` values; f-string payloads that interpolate whole dictionaries
  are rendered with the device node path, which is irrelevant to the theorems
  below (the theorems look at levels and at the message parts carrying
  diagnostic text).
-/

namespace Casette

/-- Severity levels of the `logging` calls made by the script. -/
inductive LogLevel where
  | info
  | warning
  | error
deriving DecidableEq, Repr

/-- One log line: level and message. -/
structure LogEntry where
  level : LogLevel
  msg : String
deriving DecidableEq, Repr

/-- Outcome of a `subprocess.run` call: either the process completed with a
return code and captured stderr, or the call itself raised an exception. -/
inductive CallResult where
  | completed (returncode : Int) (stderr : String)
  | raised (msg : String)
deriving DecidableEq, Repr

/-- Externally visible actions of the script, in the order performed.
`makedirs` is `os.makedirs(path, exist_ok=True)` (idempotent recursive
directory creation); `run` is `subprocess.run(cmd, ...)` with an optional
timeout in seconds; `popen` is `subprocess.Popen(cmd, ...)`; `spawnLaunchThread`
is `threading.Thread(target=launch_chromium, args=(htmlPath,), daemon=True)
.start()`. -/
inductive Effect where
  | makedirs (path : String)
  | run (cmd : List String) (timeoutSec : Option Nat)
  | popen (cmd : List String)
  | sleep (seconds : Nat)
  | pathExists (path : String)
  | rmdir (path : String)
  | spawnLaunchThread (htmlPath : String)
deriving DecidableEq, Repr

/-- Outcomes of the fallible primitives, supplied by the surrounding world.
`none` for an `Option String` field means the call succeeded; `some e` means
it raised an exception rendered as `e`.  `rmdirOk p = false` means
`os.rmdir p` raised `OSError`; `threadStart` is the outcome of
`threading.Thread(...).start()`, which raises `RuntimeError` when the worker
thread cannot be created. -/
structure Env where
  contextNew : Option String
  fromNetlink : Option String
  filterBy : Option String
  makedirs : String → Option String
  run : List String → CallResult
  popen : List String → Option String
  pathExists : String → Bool
  rmdirOk : String → Bool
  threadStart : Option String
  observerStart : Option String

/-- `MOUNT_BASE = "/mnt/casette"` from the script's configuration block. -/
def MOUNT_BASE : String := "/mnt/casette"

/-- Leading-slash test used by `os.path.join` on POSIX: a second component
that is absolute discards the first component. -/
def startsWithSlash (s : String) : Bool := s.data.head? = some ('/')

/-- Trailing-slash test used by `os.path.join` on POSIX. -/
def endsWithSlash (s : String) : Bool := s.data.getLast? = some ('/')

/-- POSIX `os.path.join(a, b)` for two components. -/
def osPathJoin (a b : String) : String :=
  if startsWithSlash b then b
  else if a = "" then b
  else if endsWithSlash a then a ++ b
  else a ++ "/" ++ b

/-- Auxiliary for Python `str.split(sep)` with a one-character separator,
accumulating the current field in reverse. -/
def pySplitCharAux (sep : Char) : List Char → List Char → List (List Char)
  | [], acc => [acc.reverse]
  | c :: cs, acc =>
      if c = sep then acc.reverse :: pySplitCharAux sep cs []
      else pySplitCharAux sep cs (c :: acc)

/-- Python `s.split(sep)` for a one-character separator.  Always returns a
non-empty list; `"".split(sep) = [""]`. -/
def pySplitChar (sep : Char) (s : String) : List String :=
  (pySplitCharAux sep s.data []).map (fun cs => String.mk cs)

/-- Python `s.split('/')[-1]`, as used for the fallback label. -/
def pySplitLastSlash (s : String) : String :=
  ((pySplitChar ('/') s).getLast?).getD ""

/-- Python `dict.get(key, default)` on an optional property value. -/
def pyGet (v : Option String) (dflt : String) : String := v.getD dflt

/-- The subsystem chain seen while walking `device` / `device.parent` /
`device.parent.parent` / ....  `nil` is the walk reaching `None`; `fail` is
the point at which accessing `.subsystem` or `.parent` raises. -/
inductive DeviceChain where
  | nil
  | fail
  | node (subsystem : String) (parent : DeviceChain)
deriving DecidableEq, Repr

/-- The udev property mapping of a device, restricted to the keys the script
reads.  `none` means the key is absent from the mapping. -/
structure UdevProps where
  devname : Option String := none
  fsLabel : Option String := none
  fsUuid : Option String := none
  fsType : Option String := none
deriving DecidableEq, Repr

/-- A udev device event as the script sees it: the event action, the
subsystem chain of the device, and its property mapping. -/
structure Device where
  action : String
  chain : DeviceChain
  props : UdevProps
deriving DecidableEq, Repr

/-- `USBMonitor.is_usb_device`: walk up the device tree looking for the
`usb` subsystem; any exception during the walk is caught and yields
`False`. -/
def is_usb_device : DeviceChain → Bool
  | .nil => false
  | .fail => false
  | .node s p => if s = "usb" then true else is_usb_device p

/-- All subsystems along a chain (the walk stops at `nil` or at the point
where resolution raises). -/
def chainSubsystems : DeviceChain → List String
  | .nil => []
  | .fail => []
  | .node s p => s :: chainSubsystems p

/-- True iff the walk performed by `is_usb_device` actually reaches the point
where resolution raises (no `usb` subsystem is found before it). -/
def walkFails : DeviceChain → Bool
  | .nil => false
  | .fail => true
  | .node s p => if s = "usb" then false else walkFails p

/-- The dictionary returned by `USBMonitor.get_device_info`. -/
structure DeviceInfo where
  name : String
  label : String
  uuid : String
  filesystem : String
deriving DecidableEq, Repr

/-- `USBMonitor.get_device_info`: reads `DEVNAME`, `ID_FS_LABEL`,
`ID_FS_UUID`, `ID_FS_TYPE` with `device.get(key, default)`; the label is
the Python expression `device_label or fallback`, which takes the fallback
`usb_ + device_name.split(/)[-1]` exactly when `device_label` is the empty
string. -/
def get_device_info (p : UdevProps) : DeviceInfo :=
  let device_name := pyGet p.devname ("")
  let device_label := pyGet p.fsLabel ("")
  { name := device_name
  , label :=
      if device_label = "" then "usb_" ++ pySplitLastSlash device_name
      else device_label
  , uuid := pyGet p.fsUuid ("")
  , filesystem := pyGet p.fsType ("unknown") }

/-- Result of one of the script's methods: its return value plus the log
lines and external effects it produced, in order. -/
structure ActionResult (α : Type) where
  value : α
  logs : List LogEntry
  effects : List Effect
deriving DecidableEq, Repr

/-- `os.path.join(MOUNT_BASE, device_info['label'])`, computed identically at
the top of both `mount_device` and `unmount_device`. -/
def join_mount_point (info : DeviceInfo) : String :=
  osPathJoin MOUNT_BASE info.label

/-- `USBMonitor.mount_device`: create the mount point directory
(`exist_ok=True`), run `sudo mount <dev> <mount_point>`; return the mount
point on exit code 0 and `None` otherwise; every exception inside the method
is caught and logged. -/
def mount_device (env : Env) (info : DeviceInfo) : ActionResult (Option String) :=
  let mount_point := join_mount_point info
  match env.makedirs mount_point with
  | some e =>
      { value := none
      , logs := [⟨.error, "Error mounting device " ++ info.name ++ ": " ++ e⟩]
      , effects := [.makedirs mount_point] }
  | none =>
      let cmd : List String := ["sudo", "mount", info.name, mount_point]
      match env.run cmd with
      | .raised e =>
          { value := none
          , logs := [⟨.error, "Error mounting device " ++ info.name ++ ": " ++ e⟩]
          , effects := [.makedirs mount_point, .run cmd none] }
      | .completed rc stderr =>
          if rc = 0 then
            { value := some mount_point
            , logs := [⟨.info, "Successfully mounted " ++ info.name ++ " to " ++ mount_point⟩]
            , effects := [.makedirs mount_point, .run cmd none] }
          else
            { value := none
            , logs := [⟨.error, "Failed to mount " ++ info.name ++ ": " ++ stderr⟩]
            , effects := [.makedirs mount_point, .run cmd none] }

/-- `USBMonitor.kill_chromium`: `pkill -f chromium`, exceptions caught and
logged as a warning. -/
def kill_chromium (env : Env) : ActionResult Unit :=
  let cmd : List String := ["pkill", "-f", "chromium"]
  match env.run cmd with
  | .raised e =>
      { value := ()
      , logs := [⟨.warning, "Could not kill Chromium processes: " ++ e⟩]
      , effects := [.run cmd none] }
  | .completed _ _ =>
      { value := ()
      , logs := [⟨.info, "Killed existing Chromium processes"⟩]
      , effects := [.run cmd none] }

/-- `USBMonitor.unmount_device`: recompute the mount point from the label,
kill the viewer, sleep 2 seconds, run `sudo umount <mount_point>`; on exit
code 0 additionally try `os.rmdir` (a failure there only warns); on non-zero
exit log an error; any exception in the body is caught and logged.  The
method never touches `mounted_devices`. -/
def unmount_device (env : Env) (info : DeviceInfo) : ActionResult Unit :=
  let mount_point := join_mount_point info
  let k := kill_chromium env
  let cmd : List String := ["sudo", "umount", mount_point]
  match env.run cmd with
  | .raised e =>
      { value := ()
      , logs := k.logs ++ [⟨.error, "Error unmounting device: " ++ e⟩]
      , effects := k.effects ++ [.sleep 2, .run cmd none] }
  | .completed rc stderr =>
      if rc = 0 then
        if env.rmdirOk mount_point then
          { value := ()
          , logs := k.logs ++ [⟨.info, "Successfully unmounted " ++ mount_point⟩]
          , effects := k.effects ++ [.sleep 2, .run cmd none, .rmdir mount_point] }
        else
          { value := ()
          , logs := k.logs ++
              [⟨.info, "Successfully unmounted " ++ mount_point⟩,
               ⟨.warning, "Could not remove mount point directory " ++ mount_point⟩]
          , effects := k.effects ++ [.sleep 2, .run cmd none, .rmdir mount_point] }
      else
        { value := ()
        , logs := k.logs ++ [⟨.error, "Failed to unmount " ++ mount_point ++ ": " ++ stderr⟩]
        , effects := k.effects ++ [.sleep 2, .run cmd none] }

/-- The fixed flag list of the Chromium kiosk invocation. -/
def chromiumFlags : List String :=
  ["--kiosk", "--no-sandbox", "--disable-web-security",
   "--disable-features=TranslateUI", "--disable-ipc-flooding-protection",
   "--start-fullscreen"]

/-- `USBMonitor.launch_chromium`: kill existing viewers, sleep 1 second,
probe `which chromium` to pick the executable name, then `Popen` the kiosk
command on the configured display; exceptions are caught and logged, and the
method returns `False` (no process handle) in that case. -/
def launch_chromium (env : Env) (html_path : String) : ActionResult Bool :=
  let k := kill_chromium env
  let whichCmd : List String := ["which", "chromium"]
  match env.run whichCmd with
  | .raised e =>
      { value := false
      , logs := k.logs ++ [⟨.error, "Error launching Chromium: " ++ e⟩]
      , effects := k.effects ++ [.sleep 1, .run whichCmd none] }
  | .completed rc _ =>
      let chromium_cmd := if rc = 0 then "chromium" else "chromium-browser"
      let cmd : List String := chromium_cmd :: chromiumFlags ++ ["file://" ++ html_path]
      match env.popen cmd with
      | some e =>
          { value := false
          , logs := k.logs ++ [⟨.error, "Error launching Chromium: " ++ e⟩]
          , effects := k.effects ++ [.sleep 1, .run whichCmd none, .popen cmd] }
      | none =>
          { value := true
          , logs := k.logs ++ [⟨.info, "Launched Chromium in kiosk mode with " ++ html_path⟩]
          , effects := k.effects ++ [.sleep 1, .run whichCmd none, .popen cmd] }

/-- Python `set.add` on the `mounted_devices` set of device node paths. -/
def setAdd (st : List String) (x : String) : List String :=
  if x ∈ st then st else st ++ [x]

/-- Python `set.discard` on the `mounted_devices` set. -/
def setDiscard (st : List String) (x : String) : List String :=
  st.filter (fun y => y ≠ x)

/-- Result of one event-handler invocation: the new `mounted_devices` state
plus logs and effects, and — since neither `handle_device_add` nor
`handle_udev_event` has a `try/except` of its own — the exception, if any,
that escaped the handler uncaught (`none` when the handler returned
normally). -/
structure StepResult where
  state : List String
  logs : List LogEntry
  effects : List Effect
  escaped : Option String := none
deriving DecidableEq, Repr

/-- `USBMonitor.handle_device_add`: filter by `is_usb_device`, extract the
info dictionary, sleep 2 seconds, mount; on success add the device node path
to `mounted_devices` and, iff `<mount_point>/index.html` exists, start a
daemon thread running `launch_chromium` on that path.  The
`threading.Thread(...).start()` call sits in no `try/except` (the method has
none, and its caller `handle_udev_event` has none either), so a
`RuntimeError` raised by thread creation escapes the handler uncaught:
`escaped` carries `env.threadStart` in that branch, after the state update
and the marker log have already happened. -/
def handle_device_add (env : Env) (st : List String) (d : Device) : StepResult :=
  if is_usb_device d.chain then
    let info := get_device_info d.props
    let insertLog : LogEntry := ⟨.info, "USB device inserted: " ++ info.name⟩
    let m := mount_device env info
    match m.value with
    | none =>
        { state := st
        , logs := insertLog :: m.logs
        , effects := Effect.sleep 2 :: m.effects }
    | some mount_point =>
        let st1 := setAdd st info.name
        let index_path := osPathJoin mount_point ("index.html")
        if env.pathExists index_path then
          { state := st1
          , logs := insertLog :: m.logs ++ [⟨.info, "Found index.html at " ++ index_path⟩]
          , effects := Effect.sleep 2 :: m.effects ++
              [.pathExists index_path, .spawnLaunchThread index_path]
          , escaped := env.threadStart }
        else
          { state := st1
          , logs := insertLog :: m.logs ++ [⟨.info, "No index.html found in " ++ mount_point⟩]
          , effects := Effect.sleep 2 :: m.effects ++ [.pathExists index_path] }
  else { state := st, logs := [], effects := [] }

/-- `USBMonitor.handle_device_remove`: filter by `is_usb_device`; if the
device node path is tracked, call `unmount_device` and then unconditionally
`discard` the path from `mounted_devices`. -/
def handle_device_remove (env : Env) (st : List String) (d : Device) : StepResult :=
  if is_usb_device d.chain then
    let info := get_device_info d.props
    if info.name ∈ st then
      let u := unmount_device env info
      { state := setDiscard st info.name
      , logs := ⟨.info, "USB device removed: " ++ info.name⟩ :: u.logs
      , effects := u.effects }
    else { state := st, logs := [], effects := [] }
  else { state := st, logs := [], effects := [] }

/-- `USBMonitor.handle_udev_event`: route by `device.action`; anything other
than `add` and `remove` is ignored.  The method has no `try/except`, so an
exception escaping a handler (the `escaped` field) propagates into the
pyudev observer machinery. -/
def handle_udev_event (env : Env) (st : List String) (d : Device) : StepResult :=
  if d.action = "add" then handle_device_add env st d
  else if d.action = "remove" then handle_device_remove env st d
  else { state := st, logs := [], effects := [] }

/-- The observer's dispatch loop: each incoming event is handled by
`handle_udev_event`, and the handling of one event produces the state the
next event is handled in.  An exception escaping the callback kills the
observer thread, so no further event is dispatched (the main thread keeps
sleeping).  Returns the final state and the per-event results in order. -/
def runEvents (env : Env) (st : List String) : List Device → List String × List StepResult
  | [] => (st, [])
  | d :: rest =>
      let r := handle_udev_event env st d
      match r.escaped with
      | some _ => (r.state, [r])
      | none =>
          let next := runEvents env r.state rest
          (next.1, r :: next.2)

/-- `USBMonitor.cleanup`: for each tracked device node path run
`sudo umount <device_name>` with `timeout=10`; the outcome — including any
exception — is ignored (`except Exception: pass`) and the iteration
continues. -/
def cleanup (env : Env) (st : List String) : List Effect :=
  match st with
  | [] => []
  | n :: rest =>
      let cmd : List String := ["sudo", "umount", n]
      let _outcome := env.run cmd
      Effect.run cmd (some 10) :: cleanup env rest

/-- `USBMonitor.__init__`: `pyudev.Context()`, `Monitor.from_netlink`,
`filter_by(subsystem=block, device_type=partition)`,
`mounted_devices = set()`, `os.makedirs(MOUNT_BASE, exist_ok=True)`.
An exception in any step propagates to the caller (`main`). -/
def usbMonitorInit (env : Env) : Except String (List String × List Effect) :=
  match env.contextNew with
  | some e => .error e
  | none =>
    match env.fromNetlink with
    | some e => .error e
    | none =>
      match env.filterBy with
      | some e => .error e
      | none =>
        match env.makedirs MOUNT_BASE with
        | some e => .error e
        | none => .ok ([], [Effect.makedirs MOUNT_BASE])

/-- `USBMonitor.start_monitoring`: start the `MonitorObserver`; an exception
there is caught by the method's own `except Exception` clause (logged, not
re-raised); otherwise events are dispatched until the interrupt arrives;
either way the `finally` clause runs `cleanup`.  The method never raises. -/
def start_monitoring (env : Env) (st : List String) (events : List Device) : StepResult :=
  let startLog : LogEntry := ⟨.info, "Starting USB device monitoring..."⟩
  match env.observerStart with
  | some e =>
      { state := st
      , logs := [startLog, ⟨.error, "Error in USB monitor: " ++ e⟩]
      , effects := cleanup env st }
  | none =>
      let r := runEvents env st events
      { state := r.1
      , logs := startLog ::
          ⟨.info, "USB monitor started successfully. Press Ctrl+C to stop."⟩ ::
          (r.2.map (fun s => s.logs)).flatten ++
          [⟨.info, "Received interrupt signal, stopping monitor..."⟩]
      , effects := (r.2.map (fun s => s.effects)).flatten ++ cleanup env r.1 }

/-- `main`: construct the monitor and run it; only an exception escaping
`USBMonitor()` itself reaches the `except` clause, which logs a fatal error
and calls `sys.exit(1)`.  Returns the process exit status and the logs. -/
def mainRun (env : Env) (events : List Device) : Nat × List LogEntry :=
  let startLog : LogEntry := ⟨.info, "Starting Casette USB Monitor Service"⟩
  match usbMonitorInit env with
  | .error e => (1, [startLog, ⟨.error, "Fatal error: " ++ e⟩])
  | .ok (st, _initEffects) =>
      let r := start_monitoring env st events
      (0, startLog :: r.logs)

/-- Recognize a `sudo umount ...` invocation among the recorded effects. -/
def isUmountRun : Effect → Bool
  | .run cmd _ => cmd.take 2 = ["sudo", "umount"]
  | _ => false

/-- Number of external unmount-utility invocations in an effect list. -/
def umountRunCount (effs : List Effect) : Nat :=
  (effs.filter isUmountRun).length

/-- Recognize a viewer-launch thread spawn among the recorded effects. -/
def isSpawnLaunch : Effect → Bool
  | .spawnLaunchThread _ => true
  | _ => false

/-- Recognize a direct `Popen` (viewer process start) among the recorded
effects. -/
def isPopen : Effect → Bool
  | .popen _ => true
  | _ => false

/-- A world in which every external call succeeds (exit code 0, no
exceptions, marker file present). -/
def envAllOk : Env :=
  { contextNew := none
  , fromNetlink := none
  , filterBy := none
  , makedirs := fun _ => none
  , run := fun _ => .completed 0 ("")
  , popen := fun _ => none
  , pathExists := fun _ => true
  , rmdirOk := fun _ => true
  , threadStart := none
  , observerStart := none }

/-- A world identical to `envAllOk` except that creating the viewer-launch
thread raises `RuntimeError`. -/
def envThreadFails : Env :=
  { envAllOk with threadStart := some ("cannot start new thread") }

/-- A world in which only `os.makedirs` raises. -/
def envMakedirsFails : Env :=
  { envAllOk with makedirs := fun _ => some ("Permission denied") }

/-- A world in which creating the netlink monitor (the hotplug
subscription) raises. -/
def envNetlinkFails : Env :=
  { envAllOk with fromNetlink := some ("cannot open netlink socket") }

/-- A world in which every `sudo umount` invocation exits with code 32 and
every other call succeeds. -/
def envUmountFails : Env :=
  { envAllOk with
      run := fun cmd =>
        if cmd.take 2 = ["sudo", "umount"] then .completed 32 ("target is busy")
        else .completed 0 ("") }

/-- A world in which every `sudo mount` invocation exits with code 32 and
every other call succeeds. -/
def envMountFails : Env :=
  { envAllOk with
      run := fun cmd =>
        if cmd.take 2 = ["sudo", "mount"] then .completed 32 ("wrong fs type")
        else .completed 0 ("") }

/-- A world identical to `envAllOk` except that no marker file exists. -/
def envNoMarker : Env :=
  { envAllOk with pathExists := fun _ => false }

/-- A removal event for a labelled USB partition at `/dev/sdb1`. -/
def sdb1Remove : Device :=
  { action := "remove"
  , chain := .node ("block") (.node ("usb") .nil)
  , props := { devname := some ("/dev/sdb1"), fsLabel := some ("MYUSB")
             , fsUuid := some ("0000-0001"), fsType := some ("vfat") } }

/-- An insertion event for the same partition. -/
def sdb1Add : Device := { sdb1Remove with action := "add" }

/-- An insertion event for an unlabelled USB partition at `/dev/sdb1`. -/
def sdb1AddNoLabel : Device :=
  { action := "add"
  , chain := .node ("block") (.node ("usb") .nil)
  , props := { devname := some ("/dev/sdb1") } }

/-- An `add` event whose device-tree walk raises immediately. -/
def failChainAdd : Device :=
  { action := "add", chain := .fail, props := { devname := some ("/dev/sdc1") } }

/-- Two infos that differ in every field except the label. -/
def sameLabelInfoA : DeviceInfo :=
  { name := "/dev/sda1", label := "SHARED", uuid := "1111", filesystem := "vfat" }

/-- Second info carrying the same label as `sameLabelInfoA`. -/
def sameLabelInfoB : DeviceInfo :=
  { name := "/dev/sdb9", label := "SHARED", uuid := "2222", filesystem := "ext4" }

/-- A property mapping whose `ID_FS_LABEL` key is present but maps to the
empty string. -/
def emptyLabelProps : UdevProps :=
  { devname := some ("/dev/sdb1"), fsLabel := some ("") }

/-- A string starting with `usb_` is never empty. -/
theorem usb_prefix_ne_empty (t : String) : ("usb_" ++ t) ≠ "" := by
  intro h
  have h2 := congrArg String.length h
  rw [String.length_append] at h2
  have h4 : ("usb_" : String).length = 4 := rfl
  have h0 : ("" : String).length = 0 := rfl
  rw [h4, h0] at h2
  omega

/-- `kill_chromium` always performs exactly the `pkill` call, whatever its
outcome. -/
theorem kill_chromium_effects (env : Env) :
    (kill_chromium env).effects = [Effect.run (["pkill", "-f", "chromium"]) none] := by
  unfold kill_chromium
  cases h : env.run (["pkill", "-f", "chromium"]) <;> simp [h]

/-- `unmount_device` always performs, in order: the viewer kill, the
two-second grace wait, and the external unmount call on the path derived
from the label. -/
theorem unmount_device_effects (env : Env) (info : DeviceInfo) :
    ∃ rest, (unmount_device env info).effects =
      Effect.run (["pkill", "-f", "chromium"]) none ::
      Effect.sleep 2 ::
      Effect.run (["sudo", "umount", join_mount_point info]) none :: rest := by
  have hk := kill_chromium_effects env
  unfold unmount_device
  cases h : env.run (["sudo", "umount", join_mount_point info]) with
  | raised e => exact ⟨[], by simp [h, hk]⟩
  | completed rc stderr =>
      by_cases hrc : rc = 0
      · by_cases hrm : env.rmdirOk (join_mount_point info) <;>
          exact ⟨[Effect.rmdir (join_mount_point info)], by simp [h, hk, hrc, hrm]⟩
      · exact ⟨[], by simp [h, hk, hrc]⟩

/-- `unmount_device` invokes the external unmount utility exactly once. -/
theorem unmount_device_umount_count (env : Env) (info : DeviceInfo) :
    umountRunCount (unmount_device env info).effects = 1 := by
  have hk := kill_chromium_effects env
  unfold unmount_device
  cases h : env.run (["sudo", "umount", join_mount_point info]) with
  | raised e => simp [h, hk, umountRunCount, isUmountRun]
  | completed rc stderr =>
      by_cases hrc : rc = 0
      · by_cases hrm : env.rmdirOk (join_mount_point info) <;>
          simp [h, hk, hrc, hrm, umountRunCount, isUmountRun]
      · simp [h, hk, hrc, umountRunCount, isUmountRun]

/-- `mount_device` never spawns a viewer thread nor a viewer process. -/
theorem mount_device_no_viewer (env : Env) (info : DeviceInfo) :
    (mount_device env info).effects.filter isSpawnLaunch = [] ∧
    (mount_device env info).effects.filter isPopen = [] := by
  unfold mount_device
  cases h1 : env.makedirs (join_mount_point info) with
  | some e => simp [h1, isSpawnLaunch, isPopen]
  | none =>
      cases h2 : env.run (["sudo", "mount", info.name, join_mount_point info]) with
      | raised e => simp [h1, h2, isSpawnLaunch, isPopen]
      | completed rc stderr =>
          by_cases hrc : rc = 0 <;> simp [h1, h2, hrc, isSpawnLaunch, isPopen]

/-- An element just added by `setAdd` is a member. -/
theorem mem_setAdd_self (st : List String) (x : String) : x ∈ setAdd st x := by
  unfold setAdd
  by_cases h : x ∈ st <;> simp [h]

/-- An element just removed by `setDiscard` is not a member. -/
theorem not_mem_setDiscard_self (st : List String) (x : String) :
    x ∉ setDiscard st x := by
  unfold setDiscard
  simp [List.mem_filter]

/-- C5: for every device such that neither the device nor any ancestor in
its parent chain belongs to the USB subsystem, `is_usb_device` returns
false; and for every device whose parent-chain walk actually hits the point
where resolution raises, `is_usb_device` returns false (the exception is
caught) rather than propagating. -/
theorem C5_classifier_non_usb_false :
    ∀ c : DeviceChain,
      ((∀ s ∈ chainSubsystems c, s ≠ "usb") → is_usb_device c = false) ∧
      (walkFails c = true → is_usb_device c = false) := by
  intro c
  induction c with
  | nil => exact ⟨fun _ => rfl, fun _ => rfl⟩
  | fail => exact ⟨fun _ => rfl, fun _ => rfl⟩
  | node s p ih =>
      constructor
      · intro h
        have hs : s ≠ "usb" := h s (by simp [chainSubsystems])
        have hp := ih.1 (fun t ht => h t (by simp [chainSubsystems]; exact Or.inr ht))
        simp [is_usb_device, hs, hp]
      · intro h
        by_cases hs : s = "usb"
        · rw [walkFails] at h
          simp [hs] at h
        · rw [walkFails] at h
          simp only [if_neg hs] at h
          simp [is_usb_device, hs, ih.2 h]

/-- C5 witness: a concrete chain with no USB ancestor whose walk hits a
resolution failure is classified as not relevant. -/
theorem C5_classifier_non_usb_false_witness :
    (∀ s ∈ chainSubsystems (DeviceChain.node ("block") .fail), s ≠ "usb") ∧
    walkFails (DeviceChain.node ("block") .fail) = true ∧
    is_usb_device (DeviceChain.node ("block") .fail) = false :=
  ⟨by decide, by decide,
   (C5_classifier_non_usb_false (DeviceChain.node ("block") .fail)).2 (by decide)⟩

/-- C6 counterexample: a device whose `ID_FS_LABEL` property is present but
maps to the empty string does not get that (present) label; the fallback
`usb_sdb1` is produced instead, because the Python expression
`device_label or fallback` also falls back on a present-but-empty label. -/
theorem C6_counterexample :
    emptyLabelProps.fsLabel = some ("") ∧
    (get_device_info emptyLabelProps).label = "usb_sdb1" ∧
    (get_device_info emptyLabelProps).label ≠ pyGet emptyLabelProps.fsLabel ("") := by
  decide

/-- C6 (amended): for every device whose filesystem-label lookup yields the
empty string (key absent, or present mapping to the empty string), the label
is `usb_ + basename(devicePath)` and is non-empty; a present non-empty
filesystem label is used as-is. -/
theorem C6_label_fallback :
    ∀ p : UdevProps,
      (pyGet p.fsLabel ("") = "" →
        (get_device_info p).label = "usb_" ++ pySplitLastSlash (pyGet p.devname ("")) ∧
        (get_device_info p).label ≠ "") ∧
      (∀ s, p.fsLabel = some s → s ≠ "" → (get_device_info p).label = s) := by
  intro p
  constructor
  · intro h
    constructor
    · simp [get_device_info, h]
    · simp [get_device_info, h]
      exact usb_prefix_ne_empty _
  · intro s hs hne
    simp [get_device_info, pyGet, hs, hne]

/-- C6 witness: with `DEVNAME=/dev/sdb1` and no label the fallback
`usb_sdb1` is produced and non-empty; a present non-empty label `MYUSB` is
used as-is. -/
theorem C6_label_fallback_witness :
    (get_device_info { devname := some ("/dev/sdb1") }).label = "usb_sdb1" ∧
    (get_device_info { devname := some ("/dev/sdb1") }).label ≠ "" ∧
    (get_device_info { devname := some ("/dev/sdb1"), fsLabel := some ("MYUSB") }).label = "MYUSB" := by
  have h1 := (C6_label_fallback { devname := some ("/dev/sdb1") }).1 (by decide)
  have h2 := (C6_label_fallback { devname := some ("/dev/sdb1"), fsLabel := some ("MYUSB") }).2
    ("MYUSB") rfl (by decide)
  exact ⟨h1.1.trans (by decide), h1.2, h2⟩

/-- C9: shutdown cleanup runs exactly one `sudo umount <device_path>` per
still-recorded device node path (the raw device path, not the tracked mount
point), each with a ten-second timeout, independently of any failures: the
effect trace equals the map over the recorded list for every environment,
so one failing attempt can never suppress the remaining ones, and the
function is total (no exception escapes). -/
theorem C9_cleanup_best_effort :
    ∀ (env : Env) (st : List String),
      cleanup env st = st.map (fun n => Effect.run (["sudo", "umount", n]) (some 10)) := by
  intro env st
  induction st with
  | nil => rfl
  | cons n rest ih => simp [cleanup, ih]

/-- C10: the removal-time unmount recomputes its target as
`MOUNT_BASE/label` at call time: the effect trace starts with the viewer
kill, the two-second grace wait, and the unmount of exactly
`join_mount_point info` (a function of the label alone, so two devices with
equal labels resolve to the same target); and on the add path the tracked
state records the raw device node path, not the mount point the mount call
returned. -/
theorem C10_unmount_targets_label_path :
    ∀ (env : Env) (info : DeviceInfo),
      ((unmount_device env info).effects.take 3 =
        [Effect.run (["pkill", "-f", "chromium"]) none,
         Effect.sleep 2,
         Effect.run (["sudo", "umount", join_mount_point info]) none]) ∧
      join_mount_point info = osPathJoin MOUNT_BASE info.label ∧
      (∀ a b : DeviceInfo, a.label = b.label → join_mount_point a = join_mount_point b) ∧
      (∀ (st : List String) (d : Device),
        is_usb_device d.chain = true →
        (mount_device env (get_device_info d.props)).value ≠ none →
        (handle_device_add env st d).state = setAdd st (get_device_info d.props).name) := by
  intro env info
  refine ⟨?_, rfl, ?_, ?_⟩
  · obtain ⟨rest, hr⟩ := unmount_device_effects env info
    rw [hr]
    rfl
  · intro a b h
    unfold join_mount_point
    rw [h]
  · intro st d husb hval
    unfold handle_device_add
    rw [husb]
    simp only [if_true]
    cases hm : (mount_device env (get_device_info d.props)).value with
    | none => exact absurd hm hval
    | some mp =>
        by_cases hpe : env.pathExists (osPathJoin mp ("index.html")) <;>
          simp [hm, hpe]

/-- C10 witness: the removal-time unmount of the labelled `/dev/sdb1` device
targets `/mnt/casette/MYUSB`; two devices sharing a label share the target;
and after a successful add the tracked state holds the device node path. -/
theorem C10_unmount_targets_label_path_witness :
    (unmount_device envAllOk (get_device_info sdb1Remove.props)).effects.take 3 =
      [Effect.run (["pkill", "-f", "chromium"]) none,
       Effect.sleep 2,
       Effect.run (["sudo", "umount", "/mnt/casette/MYUSB"]) none] ∧
    join_mount_point sameLabelInfoA = join_mount_point sameLabelInfoB ∧
    (handle_device_add envAllOk [] sdb1Add).state = ["/dev/sdb1"] := by
  refine ⟨?_, ?_, ?_⟩
  · exact ((C10_unmount_targets_label_path envAllOk (get_device_info sdb1Remove.props)).1).trans
      (by decide)
  · exact (C10_unmount_targets_label_path envAllOk sameLabelInfoA).2.2.1
      sameLabelInfoA sameLabelInfoB rfl
  · have h := (C10_unmount_targets_label_path envAllOk (get_device_info sdb1Add.props)).2.2.2
      [] sdb1Add (by decide) (by decide)
    exact h.trans (by decide)

/-- C1 counterexample: a startup in which the hotplug subscription is
established successfully (context, netlink monitor and filter all succeed)
but `os.makedirs(MOUNT_BASE)` raises still exits with status 1, so the
subscription failure is not the only cause of a non-zero exit. -/
theorem C1_counterexample :
    (mainRun envMakedirsFails []).1 = 1 ∧
    envMakedirsFails.contextNew = none ∧
    envMakedirsFails.fromNetlink = none ∧
    envMakedirsFails.filterBy = none := by
  decide

/-- C1 (amended): a failure to establish the hotplug subscription during
monitor construction (creating the netlink monitor or installing its
filter) logs a fatal error and exits with status 1; per-event failures
never cause a non-zero exit (whenever construction succeeds the process
exits 0, whatever the events and their outcomes); but any other
construction failure, such as creating the mount base directory, also
exits non-zero. -/
theorem C1_startup_exit :
    ∀ (env : Env) (events : List Device),
      (∀ e, env.contextNew = none → env.fromNetlink = some e →
        (mainRun env events).1 = 1 ∧
        LogEntry.mk .error ("Fatal error: " ++ e) ∈ (mainRun env events).2) ∧
      (∀ e, env.contextNew = none → env.fromNetlink = none → env.filterBy = some e →
        (mainRun env events).1 = 1 ∧
        LogEntry.mk .error ("Fatal error: " ++ e) ∈ (mainRun env events).2) ∧
      (∀ st effs, usbMonitorInit env = .ok (st, effs) → (mainRun env events).1 = 0) := by
  intro env events
  refine ⟨?_, ?_, ?_⟩
  · intro e h1 h2
    simp [mainRun, usbMonitorInit, h1, h2]
  · intro e h1 h2 h3
    simp [mainRun, usbMonitorInit, h1, h2, h3]
  · intro st effs h
    simp [mainRun, h]

/-- C1 witness: a concrete netlink failure exits 1 with the fatal log, and a
fully successful world exits 0. -/
theorem C1_startup_exit_witness :
    ((mainRun envNetlinkFails []).1 = 1 ∧
      LogEntry.mk .error ("Fatal error: " ++ "cannot open netlink socket") ∈
        (mainRun envNetlinkFails []).2) ∧
    (mainRun envAllOk []).1 = 0 := by
  constructor
  · exact (C1_startup_exit envNetlinkFails []).1 ("cannot open netlink socket") rfl rfl
  · exact (C1_startup_exit envAllOk []).2.2 [] ([Effect.makedirs MOUNT_BASE]) rfl

/-- C2 counterexample: a tracked `/dev/sdb1` whose `sudo umount` exits with
code 32 during removal handling is nevertheless removed from the tracked
set afterwards — the mount record is not left in place. -/
theorem C2_counterexample :
    envUmountFails.run (["sudo", "umount", "/mnt/casette/MYUSB"]) =
      .completed 32 ("target is busy") ∧
    ("/dev/sdb1" ∈ (["/dev/sdb1"] : List String)) ∧
    (handle_device_remove envUmountFails ["/dev/sdb1"] sdb1Remove).state = [] ∧
    ("/dev/sdb1" ∉ (handle_device_remove envUmountFails ["/dev/sdb1"] sdb1Remove).state) := by
  decide

/-- C2 (amended): for every identity whose device path is tracked as
mounted, if the external unmount utility exits non-zero when handling that
device's removal, the error is surfaced only as a log entry (no exception
escapes the handler), but the removal handler discards the mount record
regardless of the outcome, so afterwards the device is no longer considered
mounted. -/
theorem C2_unmount_failure_discards_record :
    ∀ (env : Env) (st : List String) (d : Device) (rc : Int) (stderr : String),
      is_usb_device d.chain = true →
      (get_device_info d.props).name ∈ st →
      env.run (["sudo", "umount", join_mount_point (get_device_info d.props)]) =
        .completed rc stderr →
      rc ≠ 0 →
      (handle_device_remove env st d).state = setDiscard st (get_device_info d.props).name ∧
      ((get_device_info d.props).name ∉ (handle_device_remove env st d).state) ∧
      LogEntry.mk .error
          ("Failed to unmount " ++ join_mount_point (get_device_info d.props) ++ ": " ++ stderr)
        ∈ (handle_device_remove env st d).logs := by
  intro env st d rc stderr husb hmem hrun hrc
  have hrem : handle_device_remove env st d =
      { state := setDiscard st (get_device_info d.props).name
      , logs := LogEntry.mk .info ("USB device removed: " ++ (get_device_info d.props).name) ::
          (unmount_device env (get_device_info d.props)).logs
      , effects := (unmount_device env (get_device_info d.props)).effects } := by
    unfold handle_device_remove
    simp [husb, hmem]
  refine ⟨by rw [hrem], ?_, ?_⟩
  · rw [hrem]
    exact not_mem_setDiscard_self st (get_device_info d.props).name
  · rw [hrem]
    simp [unmount_device, hrun, hrc]

/-- C2 witness: the amended behaviour at the concrete failing removal. -/
theorem C2_unmount_failure_discards_record_witness :
    (handle_device_remove envUmountFails ["/dev/sdb1"] sdb1Remove).state =
      setDiscard ["/dev/sdb1"] (get_device_info sdb1Remove.props).name ∧
    ((get_device_info sdb1Remove.props).name ∉
      (handle_device_remove envUmountFails ["/dev/sdb1"] sdb1Remove).state) ∧
    LogEntry.mk .error
        ("Failed to unmount " ++ join_mount_point (get_device_info sdb1Remove.props) ++ ": " ++
          "target is busy")
      ∈ (handle_device_remove envUmountFails ["/dev/sdb1"] sdb1Remove).logs :=
  C2_unmount_failure_discards_record envUmountFails ["/dev/sdb1"] sdb1Remove 32
    ("target is busy") (by decide) (by decide) (by decide) (by decide)

/-- C3: a removal for an identity whose device path has no mount record is
a complete no-op — no external call of any kind, no log, no error, state
unchanged — and two removals in a row for the same identity invoke the
external unmount utility at most once. -/
theorem C3_remove_idempotent :
    ∀ (env : Env) (st : List String) (d : Device),
      ((get_device_info d.props).name ∉ st →
        handle_device_remove env st d = { state := st, logs := [], effects := [] }) ∧
      umountRunCount (handle_device_remove env st d).effects +
        umountRunCount
          (handle_device_remove env (handle_device_remove env st d).state d).effects ≤ 1 := by
  intro env st d
  have habs : ∀ st1 : List String, (get_device_info d.props).name ∉ st1 →
      handle_device_remove env st1 d = { state := st1, logs := [], effects := [] } := by
    intro st1 h
    unfold handle_device_remove
    by_cases husb : is_usb_device d.chain <;> simp [husb, h]
  constructor
  · exact habs st
  · by_cases husb : is_usb_device d.chain
    · by_cases hmem : (get_device_info d.props).name ∈ st
      · have h1 : handle_device_remove env st d =
            { state := setDiscard st (get_device_info d.props).name
            , logs := LogEntry.mk .info
                ("USB device removed: " ++ (get_device_info d.props).name) ::
                (unmount_device env (get_device_info d.props)).logs
            , effects := (unmount_device env (get_device_info d.props)).effects } := by
          unfold handle_device_remove
          simp [husb, hmem]
        have h2 := habs (setDiscard st (get_device_info d.props).name)
          (not_mem_setDiscard_self st (get_device_info d.props).name)
        rw [h1]
        simp only [h2]
        rw [unmount_device_umount_count]
        simp [umountRunCount]
      · simp [habs st hmem, umountRunCount]
    · have h0 : handle_device_remove env st d = { state := st, logs := [], effects := [] } := by
        unfold handle_device_remove
        simp [husb]
      simp [h0, umountRunCount]

/-- C3 witness: a removal with no record is a no-op, and the concrete
double removal of `/dev/sdb1` calls the unmount utility exactly once. -/
theorem C3_remove_idempotent_witness :
    (handle_device_remove envAllOk [] sdb1Remove =
      { state := [], logs := [], effects := [] }) ∧
    umountRunCount (handle_device_remove envAllOk ["/dev/sdb1"] sdb1Remove).effects +
      umountRunCount
        (handle_device_remove envAllOk
          (handle_device_remove envAllOk ["/dev/sdb1"] sdb1Remove).state sdb1Remove).effects ≤ 1 :=
  ⟨(C3_remove_idempotent envAllOk [] sdb1Remove).1 (by decide),
   (C3_remove_idempotent envAllOk ["/dev/sdb1"] sdb1Remove).2⟩

/-- `handle_device_remove` catches every exception its primitives can
raise, so nothing ever escapes it. -/
theorem handle_device_remove_no_escape (env : Env) (st : List String) (d : Device) :
    (handle_device_remove env st d).escaped = none := by
  unfold handle_device_remove
  by_cases husb : is_usb_device d.chain
  · by_cases hmem : (get_device_info d.props).name ∈ st <;> simp [husb, hmem]
  · simp [husb]

/-- The only exception that can escape `handle_device_add` uncaught is a
failure of the thread-creation call in the presentation step. -/
theorem handle_device_add_escape (env : Env) (st : List String) (d : Device) :
    (handle_device_add env st d).escaped = none ∨
    (handle_device_add env st d).escaped = env.threadStart := by
  unfold handle_device_add
  by_cases husb : is_usb_device d.chain
  · simp only [husb, if_true]
    cases hm : (mount_device env (get_device_info d.props)).value with
    | none => simp [hm]
    | some mp =>
        by_cases hpe : env.pathExists (osPathJoin mp ("index.html")) <;> simp [hm, hpe]
  · simp [husb]

/-- The only exception that can escape the observer callback uncaught is a
thread-creation failure on the add path. -/
theorem handle_udev_event_escape_source (env : Env) (st : List String) (d : Device) :
    (handle_udev_event env st d).escaped = none ∨
    (handle_udev_event env st d).escaped = env.threadStart := by
  unfold handle_udev_event
  by_cases ha : d.action = "add"
  · simp only [ha, if_true]
    exact handle_device_add_escape env st d
  · by_cases hr : d.action = "remove" <;>
      simp [ha, hr, handle_device_remove_no_escape]

/-- When thread creation cannot fail, no handler invocation escapes. -/
theorem handle_udev_event_no_escape (env : Env) (st : List String) (d : Device)
    (h : env.threadStart = none) : (handle_udev_event env st d).escaped = none := by
  rcases handle_udev_event_escape_source env st d with h0 | h0
  · exact h0
  · rw [h0, h]

/-- C4 counterexample: two uncaught holes in the claimed failure isolation
at concrete inputs.  First, an `add` event whose viewer-launch thread
cannot be created (`threading.Thread(...).start()` raising `RuntimeError`,
a call sitting in no `try/except`) lets the error escape the handler, and
the dispatch loop then processes only one of two pending events — the
error is neither caught nor prevented from terminating dispatch.  Second,
an `add` event whose device-tree walk raises is caught but produces no
log entry, contradicting caught *and logged*. -/
theorem C4_counterexample :
    (handle_udev_event envThreadFails [] sdb1AddNoLabel).escaped =
      some ("cannot start new thread") ∧
    (runEvents envThreadFails [] [sdb1AddNoLabel, sdb1AddNoLabel]).2.length = 1 ∧
    walkFails failChainAdd.chain = true ∧
    (handle_udev_event envAllOk [] failChainAdd).logs = [] := by
  decide

/-- C4 (amended): errors raised inside the classification walk, the mount
call, the unmount call, or the viewer process launch are caught and do not
terminate the dispatch loop (classification errors produce no log entry):
whenever the thread-creation call of the presentation step does not itself
raise, every event of the stream produces a handler result and the loop
processes all subsequent events; the thread-creation failure is the only
exception a handler can let escape, and an event handled without an escape
never stops the loop. -/
theorem C4_loop_isolation :
    ∀ (env : Env) (st : List String),
      (env.threadStart = none →
        ∀ events : List Device, (runEvents env st events).2.length = events.length) ∧
      (∀ d : Device, (handle_udev_event env st d).escaped = none ∨
        (handle_udev_event env st d).escaped = env.threadStart) ∧
      (∀ (d : Device) (rest : List Device),
        (handle_udev_event env st d).escaped = none →
        runEvents env st (d :: rest) =
          ((runEvents env (handle_udev_event env st d).state rest).1,
           handle_udev_event env st d ::
             (runEvents env (handle_udev_event env st d).state rest).2)) := by
  intro env st
  refine ⟨?_, ?_, ?_⟩
  · intro h events
    induction events generalizing st with
    | nil => rfl
    | cons d rest ih =>
        simp [runEvents, handle_udev_event_no_escape env st d h, ih]
  · intro d
    exact handle_udev_event_escape_source env st d
  · intro d rest h
    simp [runEvents, h]

/-- C4 witness: with thread creation healthy a concrete two-event stream is
fully processed, and a concretely escape-free event lets the loop continue
with the remaining events. -/
theorem C4_loop_isolation_witness :
    (runEvents envAllOk [] [sdb1AddNoLabel, sdb1Remove]).2.length = 2 ∧
    runEvents envAllOk [] [failChainAdd] =
      ((runEvents envAllOk (handle_udev_event envAllOk [] failChainAdd).state []).1,
       handle_udev_event envAllOk [] failChainAdd ::
         (runEvents envAllOk (handle_udev_event envAllOk [] failChainAdd).state []).2) := by
  constructor
  · exact (C4_loop_isolation envAllOk []).1 rfl [sdb1AddNoLabel, sdb1Remove]
  · exact (C4_loop_isolation envAllOk []).2.2 failChainAdd [] (by decide)

/-- C7: mount computes the mount point as `MOUNT_BASE/label`, always begins
by creating that directory tree with the idempotent `makedirs`, invokes the
external mount utility with the device node and that path whenever the
directory creation did not raise; on exit code 0 it returns the path, and
the add handler then records the device node path as mounted; on non-zero
exit it returns no mount point, the diagnostic text is surfaced in the
error log, and the add handler leaves the record unchanged. -/
theorem C7_mount_behavior :
    ∀ (env : Env) (info : DeviceInfo),
      ((mount_device env info).effects.head? =
        some (Effect.makedirs (join_mount_point info))) ∧
      (env.makedirs (join_mount_point info) = none →
        Effect.run (["sudo", "mount", info.name, join_mount_point info]) none ∈
          (mount_device env info).effects) ∧
      (∀ s, env.makedirs (join_mount_point info) = none →
        env.run (["sudo", "mount", info.name, join_mount_point info]) = .completed 0 s →
        (mount_device env info).value = some (join_mount_point info)) ∧
      (∀ rc stderr, env.makedirs (join_mount_point info) = none →
        env.run (["sudo", "mount", info.name, join_mount_point info]) = .completed rc stderr →
        rc ≠ 0 →
        (mount_device env info).value = none ∧
        LogEntry.mk .error ("Failed to mount " ++ info.name ++ ": " ++ stderr) ∈
          (mount_device env info).logs) ∧
      (∀ (st : List String) (d : Device),
        is_usb_device d.chain = true →
        ((mount_device env (get_device_info d.props)).value = none →
          (handle_device_add env st d).state = st) ∧
        (∀ mp, (mount_device env (get_device_info d.props)).value = some mp →
          (get_device_info d.props).name ∈ (handle_device_add env st d).state)) := by
  intro env info
  refine ⟨?_, ?_, ?_, ?_, ?_⟩
  · unfold mount_device
    cases h1 : env.makedirs (join_mount_point info) with
    | some e => simp [h1]
    | none =>
        cases h2 : env.run (["sudo", "mount", info.name, join_mount_point info]) with
        | raised e => simp [h1, h2]
        | completed rc stderr => by_cases hrc : rc = 0 <;> simp [h1, h2, hrc]
  · intro h1
    unfold mount_device
    cases h2 : env.run (["sudo", "mount", info.name, join_mount_point info]) with
    | raised e => simp [h1, h2]
    | completed rc stderr => by_cases hrc : rc = 0 <;> simp [h1, h2, hrc]
  · intro s h1 h2
    unfold mount_device
    simp [h1, h2]
  · intro rc stderr h1 h2 hrc
    unfold mount_device
    simp [h1, h2, hrc]
  · intro st d husb
    constructor
    · intro hval
      unfold handle_device_add
      simp [husb, hval]
    · intro mp hval
      unfold handle_device_add
      rw [husb]
      simp only [if_true, hval]
      by_cases hpe : env.pathExists (osPathJoin mp ("index.html")) <;>
        simp [hpe, mem_setAdd_self]

/-- C7 witness: the concrete successful add of `/dev/sdb1` records the
device path, and the concrete failing mount returns no path, keeps the
record unchanged, and logs the diagnostic text. -/
theorem C7_mount_behavior_witness :
    (mount_device envAllOk (get_device_info sdb1Add.props)).value =
      some (join_mount_point (get_device_info sdb1Add.props)) ∧
    ((get_device_info sdb1Add.props).name ∈
      (handle_device_add envAllOk [] sdb1Add).state) ∧
    (mount_device envMountFails (get_device_info sdb1Add.props)).value = none ∧
    LogEntry.mk .error
        ("Failed to mount " ++ (get_device_info sdb1Add.props).name ++ ": " ++ "wrong fs type")
      ∈ (mount_device envMountFails (get_device_info sdb1Add.props)).logs ∧
    (handle_device_add envMountFails [] sdb1Add).state = [] := by
  have info := get_device_info sdb1Add.props
  refine ⟨?_, ?_, ?_, ?_, ?_⟩
  · exact (C7_mount_behavior envAllOk (get_device_info sdb1Add.props)).2.2.1 ("") rfl (by decide)
  · exact ((C7_mount_behavior envAllOk (get_device_info sdb1Add.props)).2.2.2.2 [] sdb1Add
      (by decide)).2 (join_mount_point (get_device_info sdb1Add.props)) (by decide)
  · exact ((C7_mount_behavior envMountFails (get_device_info sdb1Add.props)).2.2.2.1 32
      ("wrong fs type") rfl (by decide) (by decide)).1
  · exact ((C7_mount_behavior envMountFails (get_device_info sdb1Add.props)).2.2.2.1 32
      ("wrong fs type") rfl (by decide) (by decide)).2
  · exact ((C7_mount_behavior envMountFails (get_device_info sdb1Add.props)).2.2.2.2 [] sdb1Add
      (by decide)).1 (by decide)

/-- C8: for every successfully mounted root path, if the marker file
`rootPath/index.html` is absent no viewer launch is started and the handler
logs that no marker was found; if it is present, exactly one viewer-launch
thread is spawned for the add event, pointed at that marker path; and the
handler itself never starts a viewer process directly — the launch lives on
the separate (thread) execution path. -/
theorem C8_presentation :
    ∀ (env : Env) (st : List String) (d : Device) (mp : String),
      is_usb_device d.chain = true →
      (mount_device env (get_device_info d.props)).value = some mp →
      (env.pathExists (osPathJoin mp ("index.html")) = false →
        (handle_device_add env st d).effects.filter isSpawnLaunch = [] ∧
        LogEntry.mk .info ("No index.html found in " ++ mp) ∈
          (handle_device_add env st d).logs) ∧
      (env.pathExists (osPathJoin mp ("index.html")) = true →
        (handle_device_add env st d).effects.filter isSpawnLaunch =
          [Effect.spawnLaunchThread (osPathJoin mp ("index.html"))]) ∧
      (handle_device_add env st d).effects.filter isPopen = [] := by
  intro env st d mp husb hval
  have hnv := mount_device_no_viewer env (get_device_info d.props)
  refine ⟨?_, ?_, ?_⟩
  · intro hpe
    unfold handle_device_add
    rw [husb]
    simp only [if_true, hval, hpe]
    constructor
    · simp [List.filter_append, hnv.1, isSpawnLaunch]
    · simp
  · intro hpe
    unfold handle_device_add
    rw [husb]
    simp only [if_true, hval, hpe]
    simp [List.filter_append, hnv.1, isSpawnLaunch]
  · unfold handle_device_add
    rw [husb]
    simp only [if_true, hval]
    by_cases hpe : env.pathExists (osPathJoin mp ("index.html")) <;>
      simp [hpe, List.filter_append, hnv.2, isPopen]

/-- C8 witness: the unlabelled `/dev/sdb1` scenario — marker present spawns
exactly one launch thread at `/mnt/casette/usb_sdb1/index.html`; marker
absent spawns none and logs; neither path starts a viewer process
directly. -/
theorem C8_presentation_witness :
    ((handle_device_add envAllOk [] sdb1AddNoLabel).effects.filter isSpawnLaunch =
      [Effect.spawnLaunchThread ("/mnt/casette/usb_sdb1/index.html")]) ∧
    ((handle_device_add envNoMarker [] sdb1AddNoLabel).effects.filter isSpawnLaunch = []) ∧
    LogEntry.mk .info ("No index.html found in " ++ "/mnt/casette/usb_sdb1") ∈
      (handle_device_add envNoMarker [] sdb1AddNoLabel).logs ∧
    (handle_device_add envAllOk [] sdb1AddNoLabel).effects.filter isPopen = [] := by
  refine ⟨?_, ?_, ?_, ?_⟩
  · have h := ((C8_presentation envAllOk [] sdb1AddNoLabel ("/mnt/casette/usb_sdb1")
      (by decide) (by decide)).2.1 (by decide))
    exact h.trans (by decide)
  · exact ((C8_presentation envNoMarker [] sdb1AddNoLabel ("/mnt/casette/usb_sdb1")
      (by decide) (by decide)).1 (by decide)).1
  · exact ((C8_presentation envNoMarker [] sdb1AddNoLabel ("/mnt/casette/usb_sdb1")
      (by decide) (by decide)).1 (by decide)).2
  · exact (C8_presentation envAllOk [] sdb1AddNoLabel ("/mnt/casette/usb_sdb1")
      (by decide) (by decide)).2.2

end Casette
